import Mathlib

/-!
Verification of the AI-generation and document-assembly pipeline of the
New Job Pal server (`src/server.js`): structured-result extraction from
model text, the per-job artifact upsert store, the template field mapper,
the docx repair pass, and the mock-interview session state machine.

JavaScript values that flow through the untyped parts of the pipeline
(parsed JSON, persisted records) are modelled by `JVal`; JS object
literals with spreads are modelled as ordered key/value lists where a
later binding overrides an earlier one (`objGet` reads the last binding,
matching JS object-literal evaluation order).
-/

/-- A JavaScript/JSON value, as produced by `JSON.parse` and stored in the
flat-file collections.  `undef` models JS `undefined` (absent property). -/
inductive JVal where
  | undef : JVal
  | null : JVal
  | bool (b : Bool) : JVal
  | num (n : Int) : JVal
  | str (s : String) : JVal
  | arr (xs : List JVal) : JVal
  | obj (kvs : List (String × JVal)) : JVal

/-- A JS object modelled as an ordered list of property bindings;
later bindings override earlier ones (object-literal order). -/
abbrev JObj := List (String × JVal)

/-- JS truthiness of a value (`if (x)`); `NaN` is out of scope of the
integer model. -/
def JVal.truthy : JVal → Bool
  | .undef => false
  | .null => false
  | .bool b => b
  | .num n => n != 0
  | .str s => s != ""
  | .arr _ => true
  | .obj _ => true

/-- Fold over the bindings keeping the last one whose key matches. -/
def objGetAux (a : JVal) (kvs : JObj) (k : String) : JVal :=
  kvs.foldl (fun acc p => if p.1 = k then p.2 else acc) a

/-- Property read on a modelled JS object: the last binding for the key
wins, absent keys read as `undefined`. -/
def objGet (kvs : JObj) (k : String) : JVal :=
  objGetAux .undef kvs k

/-- JS strict equality `v === s` against a string value. -/
def jvalIsStr (v : JVal) (s : String) : Bool :=
  match v with
  | .str t => t == s
  | _ => false

/-- JS `x || ''` on an arbitrary value: the value if truthy, else `''`. -/
def jsOrEmpty (v : JVal) : JVal :=
  if v.truthy then v else .str ""

/-- The own enumerable properties contributed by `...v` in an object
literal: objects contribute their bindings, strings and arrays contribute
index-keyed entries, primitives contribute nothing. -/
def spreadKVs : JVal → JObj
  | .obj kvs => kvs
  | .str s => (s.data.enum).map (fun p => (toString p.1, JVal.str (String.singleton p.2)))
  | .arr xs => (xs.enum).map (fun p => (toString p.1, p.2))
  | _ => []

/-- Does `...v` contribute a binding for key `k`? -/
def spreadHasKey (v : JVal) (k : String) : Bool :=
  (spreadKVs v).any (fun p => p.1 == k)

/-- Entry construction of the artifact upsert, mirroring
`src/server.js` lines 663-671 (`resumeEntry`) and lines 795-803
(`clEntry`), which are the same object literal shape:
`{ id: existing >= 0 ? old.id : uuidv4(), jobId, jobTitle: job.title || '',
company: job.company || '', ...parsed, createdAt: existing >= 0 ?
old.createdAt : now, updatedAt: now }`.  `prior` is the existing artifact
when one was found, `freshId` the `uuidv4()` result and `now` the
`new Date().toISOString()` result. -/
def mkArtifactEntry (prior : Option JObj) (job : JObj) (jobId : String)
    (parsed : JVal) (freshId now : String) : JObj :=
  [("id", match prior with | some p => objGet p "id" | none => .str freshId),
   ("jobId", .str jobId),
   ("jobTitle", jsOrEmpty (objGet job "title")),
   ("company", jsOrEmpty (objGet job "company"))]
  ++ spreadKVs parsed
  ++ [("createdAt", match prior with | some p => objGet p "createdAt" | none => .str now),
      ("updatedAt", .str now)]

/-- `if (docxFilename) { entry.docxPath = docxFilename; }`
(src/server.js lines 714-717 and 817-819). -/
def attachDocx (entry : JObj) (docx : Option String) : JObj :=
  match docx with
  | some f => if f = "" then entry else entry ++ [("docxPath", .str f)]
  | none => entry

/-- The artifact upsert of the generation endpoints
(src/server.js lines 661-724 for resumes, 793-826 for cover letters):
find the first stored artifact with the requested `jobId`
(`findIndex((r) => r.jobId === jobId)`), build the replacement entry,
optionally attach the generated document filename, then either replace
the found artifact in place or append a new one.  Returns the entry
together with the updated collection. -/
def artifactUpsertE (store : List JObj) (job : JObj) (jobId : String)
    (parsed : JVal) (freshId now : String) (docx : Option String) :
    JObj × List JObj :=
  match store.findIdx? (fun r => jvalIsStr (objGet r "jobId") jobId) with
  | some i =>
      let entry := attachDocx (mkArtifactEntry (store.get? i) job jobId parsed freshId now) docx
      (entry, store.set i entry)
  | none =>
      let entry := attachDocx (mkArtifactEntry none job jobId parsed freshId now) docx
      (entry, store ++ [entry])

/-- The updated collection after an artifact upsert. -/
def artifactUpsert (store : List JObj) (job : JObj) (jobId : String)
    (parsed : JVal) (freshId now : String) (docx : Option String) : List JObj :=
  (artifactUpsertE store job jobId parsed freshId now docx).2

/-- The character class of the JS regex `\s` (and of `String.prototype.trim`):
ASCII whitespace, NBSP, Ogham space, the U+2000 block, line/paragraph
separators, narrow NBSP, medium mathematical space, ideographic space and
the BOM. -/
def jsWhitespace (c : Char) : Bool :=
  c == ' ' || c == '\t' || c == '\n' || c == '\r' ||
  c == '\x0b' || c == '\x0c' ||
  c == '\u00a0' || c == '\u1680' ||
  (0x2000 ≤ c.toNat && c.toNat ≤ 0x200a) ||
  c == '\u2028' || c == '\u2029' || c == '\u202f' ||
  c == '\u205f' || c == '\u3000' || c == '\ufeff'

/-- JS `String.prototype.trim` on a character list. -/
def jsTrim (cs : List Char) : List Char :=
  ((cs.dropWhile jsWhitespace).reverse.dropWhile jsWhitespace).reverse

/-- Does the list start with the three backticks of a fence delimiter? -/
def startsWithTicks : List Char → Bool
  | '`' :: '`' :: '`' :: _ => true
  | _ => false

/-- The lazy capture `([\s\S]*?)` followed by the closing ` ``` `:
the shortest prefix after which three backticks follow, or `none` when no
closing delimiter exists. -/
def captureUpToClose : List Char → Option (List Char)
  | [] => none
  | c :: rest =>
      if startsWithTicks (c :: rest) then some []
      else match captureUpToClose rest with
        | some cap => some (c :: cap)
        | none => none

/-- One anchored attempt of the fence regex
` ```(?:json)?\s*([\s\S]*?)``` ` at the head of the list: the opening
backticks, an optional literal `json`, greedy whitespace, then the lazy
capture up to the closing backticks.  (Backtracking over the optional
`json` and over `\s*` can never turn a failure into a success because the
characters they consume contain no backtick, so this greedy reading is
exactly the regex's behaviour.) -/
def matchFenceAt : List Char → Option (List Char)
  | '`' :: '`' :: '`' :: rest =>
      let rest1 := if rest.take 4 = ['j', 's', 'o', 'n'] then rest.drop 4 else rest
      captureUpToClose (rest1.dropWhile jsWhitespace)
  | _ => none

/-- Leftmost match of the fence regex, as `String.prototype.match` finds
it: the first position at which the anchored attempt succeeds. -/
def firstFence : List Char → Option (List Char)
  | [] => none
  | c :: rest =>
      match matchFenceAt (c :: rest) with
      | some cap => some cap
      | none => firstFence rest

/-- The single string handed to `JSON.parse` by the extraction snippet
`const jsonMatch = result.match(/...fence.../) || [null, result];
JSON.parse(jsonMatch[1].trim())`: the trimmed capture of the first fence
when one exists, else the whole raw text trimmed. -/
def chosenInput (raw : String) : String :=
  String.mk (jsTrim (match firstFence raw.data with
    | some cap => cap
    | none => raw.data))

/-- Outcome of structured-result extraction: a parsed value, or the
failure response carrying the raw model text (`{ error: ..., raw: result }`). -/
inductive ExtractResult where
  | ok (v : JVal) : ExtractResult
  | failed (raw : String) : ExtractResult

/-- The structured-result extraction of src/server.js (lines 649-658,
781-790, 1375-1381, 1462-1468, 1532-1538 all repeat this snippet):
fence match with whole-text fallback, one `JSON.parse` attempt,
and on parse failure the error response carrying the raw text.
`parse` abstracts `JSON.parse` (returning `none` on a syntax error). -/
def extractStructured (parse : String → Option JVal) (raw : String) : ExtractResult :=
  let captured : List Char :=
    match firstFence raw.data with
    | some cap => cap
    | none => raw.data
  match parse (String.mk (jsTrim captured)) with
  | some v => .ok v
  | none => .failed raw

/-- Extraction instrumented with the list of strings handed to
`JSON.parse`, to state that exactly one parse attempt is made. -/
def extractTraced (parse : String → Option JVal) (raw : String) :
    ExtractResult × List String :=
  let input := chosenInput raw
  (match parse input with
   | some v => .ok v
   | none => .failed raw, [input])

/-- The separator character class of the repair pass
(`/[\s—••—\-|]/g` at src/server.js line 1581): whitespace,
em dash, bullet, hyphen-minus and pipe. -/
def sepClass (c : Char) : Bool :=
  jsWhitespace c || c == '\u2014' || c == '\u2022' || c == '-' || c == '|'

/-- `texts.replace(/[\s—••—\-|]/g, '')`: drop every
separator-class character. -/
def stripSeps (texts : String) : String :=
  String.mk (texts.data.filter (fun c => !sepClass c))

/-- The removal test of the repair pass (src/server.js lines 1578-1585):
a paragraph whose concatenated visible text `texts` trims to something
non-empty but whose separator-stripped text is empty is deleted. -/
def shouldRemoveParagraph (texts : String) : Bool :=
  let stripped := String.mk (jsTrim (stripSeps texts).data)
  (String.mk (jsTrim texts.data) != "") && stripped == ""

/-- The repair pass over the rendered document, with each paragraph
given by the list of its `<w:t>` text runs: paragraphs whose concatenated
visible text passes the removal test are deleted from the document. -/
def repairPass (doc : List (List String)) : List (List String) :=
  doc.filter (fun p => !shouldRemoveParagraph (String.join p))

/-- The profile fields read by the template field mapper (src/server.js
lines 676-681): plain string fields plus the optional `links` sub-object. -/
structure JPProfile where
  name : String
  email : String
  phone : String
  location : String
  title : String
  portfolio : Option String
  linkedin : Option String

/-- The job fields read by the mapper (lines 682-683). -/
structure JPJob where
  title : String
  company : String

/-- One experience entry of the generation result (§3 GenerationResult):
title, company, location, date range and achievement bullets. -/
structure ResumeExp where
  title : String
  company : String
  location : String
  dates : String
  bullets : List String

/-- A resume GenerationResult as the mapper consumes it (lines 685-712):
free-text body, summary, the three fixed skill categories and the ordered
experience list. -/
structure ResumeResult where
  resume : String
  summary : String
  management : List String
  design : List String
  tools : List String
  experiences : List ResumeExp

/-- JS `s || ''` on a string: the empty string is falsy, every other
string is itself. -/
def jsStrOrEmpty (s : String) : String :=
  if s = "" then "" else s

/-- JS `xs[i] || ''` on a string array: the element when present and
truthy, the empty string otherwise. -/
def jsIndexOr (xs : List String) (i : Nat) : String :=
  match xs.get? i with
  | some s => if s = "" then "" else s
  | none => ""

/-- JS `a || b || ''` over the optional profile links (line 681). -/
def jsLinkOr (a b : Option String) : String :=
  match a with
  | some s => if s = "" then (match b with | some t => if t = "" then "" else t | none => "") else s
  | none => match b with | some t => if t = "" then "" else t | none => ""

/-- The header, body and summary slots of `templateData`
(src/server.js lines 674-688), with the formatted current date passed in
as `dateStr`. -/
def headerSlots (profile : JPProfile) (job : JPJob) (r : ResumeResult)
    (dateStr : String) : List (String × String) :=
  [("name", jsStrOrEmpty profile.name),
   ("email", jsStrOrEmpty profile.email),
   ("phone", jsStrOrEmpty profile.phone),
   ("location", jsStrOrEmpty profile.location),
   ("title", jsStrOrEmpty profile.title),
   ("website", jsLinkOr profile.portfolio profile.linkedin),
   ("company", jsStrOrEmpty job.company),
   ("job_title", jsStrOrEmpty job.title),
   ("date", dateStr),
   ("resume_content", jsStrOrEmpty r.resume),
   ("summary", jsStrOrEmpty r.summary)]

/-- The six numbered slots of one skill category
(src/server.js lines 691-697): slot `i+1` holds `skills[i] || ''`. -/
def skillSlots (pfx : String) (skills : List String) : List (String × String) :=
  (List.range 6).map (fun i => (pfx ++ "_" ++ toString (i + 1), jsIndexOr skills i))

/-- Per-experience-position bullet budgets (line 701). -/
def bulletCounts : List Nat := [4, 3, 3, 2]

/-- The experience entry at a slot: `experiences[e] || {}`, whose absent
fields read as empty. -/
def expAt (experiences : List ResumeExp) (e : Nat) : ResumeExp :=
  experiences.getD e ⟨"", "", "", "", []⟩

/-- The numbered experience slots (src/server.js lines 699-712): for each
of the four positions, title/company/location/dates plus the capped
bullet slots. -/
def expSlots (experiences : List ResumeExp) : List (String × String) :=
  ((List.range 4).map (fun e =>
    let exp := expAt experiences e
    [("exp" ++ toString (e + 1) ++ "_title", jsStrOrEmpty exp.title),
     ("exp" ++ toString (e + 1) ++ "_company", jsStrOrEmpty exp.company),
     ("exp" ++ toString (e + 1) ++ "_location", jsStrOrEmpty exp.location),
     ("exp" ++ toString (e + 1) ++ "_dates", jsStrOrEmpty exp.dates)]
    ++ (List.range (bulletCounts.getD e 0)).map (fun b =>
        ("exp" ++ toString (e + 1) ++ "_bullet" ++ toString (b + 1),
         jsIndexOr exp.bullets b)))).flatten

/-- The complete `templateData` slot map (src/server.js lines 674-712),
in construction order: header slots, the three skill categories
(management, design, tools), then the experience blocks. -/
def mapToSlots (profile : JPProfile) (job : JPJob) (r : ResumeResult)
    (dateStr : String) : List (String × String) :=
  headerSlots profile job r dateStr
  ++ skillSlots "mgmt" r.management
  ++ skillSlots "design" r.design
  ++ skillSlots "tools" r.tools
  ++ expSlots r.experiences

/-- The fixed slot-name schema of the resume template. -/
def fixedSlotNames : List String :=
  ["name", "email", "phone", "location", "title", "website", "company",
   "job_title", "date", "resume_content", "summary"]
  ++ (List.range 6).map (fun i => "mgmt_" ++ toString (i + 1))
  ++ (List.range 6).map (fun i => "design_" ++ toString (i + 1))
  ++ (List.range 6).map (fun i => "tools_" ++ toString (i + 1))
  ++ ((List.range 4).map (fun e =>
      ["exp" ++ toString (e + 1) ++ "_title",
       "exp" ++ toString (e + 1) ++ "_company",
       "exp" ++ toString (e + 1) ++ "_location",
       "exp" ++ toString (e + 1) ++ "_dates"]
      ++ (List.range (bulletCounts.getD e 0)).map (fun b =>
          "exp" ++ toString (e + 1) ++ "_bullet" ++ toString (b + 1)))).flatten

/-- The generation result truncated to the slot schema's capacity:
at most 6 skills per category and at most 4 experiences. -/
def truncResult (r : ResumeResult) : ResumeResult :=
  { r with management := r.management.take 6, design := r.design.take 6,
           tools := r.tools.take 6, experiences := r.experiences.take 4 }

/-- First-match lookup in a slot map (slot names are pairwise distinct,
so first match and last match agree). -/
def slotLookup (m : List (String × String)) (k : String) : Option String :=
  match m with
  | [] => none
  | (k1, v) :: rest => if k1 = k then some v else slotLookup rest k

/-- Message roles of an interview session. -/
inductive MsgRole where
  | assistant : MsgRole
  | user : MsgRole
deriving DecidableEq

/-- A message of an interview session; the optional fields are
present only on the turns that set them (undefined elsewhere). -/
structure IMsg where
  role : MsgRole
  content : String
  questionType : Option String := none
  tip : Option String := none
  feedback : Option String := none
deriving DecidableEq

/-- The parsed opening of `mock-interview/start` (question,
questionType, tip). -/
structure ParsedOpening where
  question : String
  questionType : Option String
  tip : Option String
deriving DecidableEq

/-- The parsed interviewer turn of `respond` (feedback on the answer
plus the next question). -/
structure ParsedTurn where
  question : String
  questionType : Option String
  tip : Option String
  feedback : Option String
deriving DecidableEq

/-- A persisted mock-interview session (src/server.js lines 1383-1393).
`feedback` holds the final assessment object once `end` stores one. -/
structure InterviewSession where
  id : String
  jobId : String
  messages : List IMsg
  questionCount : Nat
  feedback : Option JVal
  createdAt : String
  completedAt : Option String

/-- JS truthiness of a nullable string field (`if (session.completedAt)`). -/
def optStrTruthy : Option String → Bool
  | none => false
  | some s => s != ""

/-- The session object created by `mock-interview/start`
(src/server.js lines 1383-1393): one interviewer message,
`questionCount` 1, no feedback, `completedAt` null. -/
def startSessionObj (jobId freshId createdAt : String) (p : ParsedOpening) :
    InterviewSession :=
  { id := freshId, jobId := jobId,
    messages := [{ role := .assistant, content := p.question,
                   questionType := p.questionType, tip := p.tip }],
    questionCount := 1, feedback := none,
    createdAt := createdAt, completedAt := none }

/-- The session mutation of a successful `respond`
(src/server.js lines 1470-1479): push the candidate answer, push the
interviewer turn, increment `questionCount`. -/
def respondStep (s : InterviewSession) (answer : String) (t : ParsedTurn) :
    InterviewSession :=
  { s with
    messages := s.messages
      ++ [{ role := .user, content := answer },
          { role := .assistant, content := t.question,
            feedback := t.feedback, questionType := t.questionType,
            tip := t.tip }],
    questionCount := s.questionCount + 1 }

/-- The session mutation of a successful `end`
(src/server.js lines 1540-1541): store the assessment and stamp
`completedAt`. -/
def endStep (s : InterviewSession) (fb : JVal) (now : String) :
    InterviewSession :=
  { s with feedback := some fb, completedAt := some now }

/-- One successful-or-failed `respond` at session granularity, applying
the route's guards in order (blank answer, then completed session) and
the mutation on success; the interviewer turn `t` stands for a model
round trip whose extraction succeeded. -/
def respondOk? (s : InterviewSession) (answer : String) (t : ParsedTurn) :
    Option InterviewSession :=
  if answer = "" || String.mk (jsTrim answer.data) = "" then none
  else if optStrTruthy s.completedAt then none
  else some (respondStep s answer t)

/-- Fold a list of successful responds over a session; `none` when any
respond in the trace is rejected. -/
def applyResponds (s : InterviewSession) :
    List (String × ParsedTurn) → Option InterviewSession
  | [] => some s
  | (a, t) :: rest =>
      match respondOk? s a t with
      | some s1 => applyResponds s1 rest
      | none => none

/-- Error responses of the modelled routes. -/
inductive RouteError where
  | missingJobId : RouteError
  | jobNotFound : RouteError
  | sessionNotFound : RouteError
  | answerRequired : RouteError
  | alreadyComplete : RouteError
  | modelUnavailable : RouteError
  | parseFailed (raw : String) : RouteError
deriving DecidableEq

/-- Outcome of an interview route: the persisted sessions collection
after the request, the response, and whether the model was invoked. -/
structure SessionRouteOut where
  store : List InterviewSession
  resp : Except RouteError InterviewSession
  modelCalled : Bool

/-- `POST /api/jobs/:jobId/mock-interview/start`
(src/server.js lines 1339-1403): job lookup, model round trip
(`model` is the raw text or an upstream failure), extraction via the
shared fence snippet (`parse` abstracts `JSON.parse` plus the field
reads), then creation and append of the new session. -/
def startRoute (jobs : List JObj) (sessions : List InterviewSession)
    (jobId freshId now : String) (model : Except Unit String)
    (parse : String → Option ParsedOpening) : SessionRouteOut :=
  match jobs.find? (fun j => jvalIsStr (objGet j "id") jobId) with
  | none => ⟨sessions, .error .jobNotFound, false⟩
  | some _ =>
      match model with
      | .error _ => ⟨sessions, .error .modelUnavailable, true⟩
      | .ok raw =>
          match parse (chosenInput raw) with
          | none => ⟨sessions, .error (.parseFailed raw), true⟩
          | some p =>
              let s := startSessionObj jobId freshId now p
              ⟨sessions ++ [s], .ok s, true⟩

/-- `POST /api/jobs/:jobId/mock-interview/:id/respond`
(src/server.js lines 1405-1486), in the code's guard order: blank-answer
validation, session lookup by id and jobId, completed-session guard,
model round trip, extraction, then the session mutation written back in
place. -/
def respondRoute (sessions : List InterviewSession) (jobId sid : String)
    (answer : Option String) (model : Except Unit String)
    (parse : String → Option ParsedTurn) : SessionRouteOut :=
  match answer with
  | none => ⟨sessions, .error .answerRequired, false⟩
  | some a =>
      if a = "" || String.mk (jsTrim a.data) = "" then
        ⟨sessions, .error .answerRequired, false⟩
      else
        match sessions.findIdx? (fun s => s.id == sid && s.jobId == jobId) with
        | none => ⟨sessions, .error .sessionNotFound, false⟩
        | some i =>
            match sessions.get? i with
            | none => ⟨sessions, .error .sessionNotFound, false⟩
            | some s =>
                if optStrTruthy s.completedAt then
                  ⟨sessions, .error .alreadyComplete, false⟩
                else
                  match model with
                  | .error _ => ⟨sessions, .error .modelUnavailable, true⟩
                  | .ok raw =>
                      match parse (chosenInput raw) with
                      | none => ⟨sessions, .error (.parseFailed raw), true⟩
                      | some t =>
                          let s1 := respondStep s a t
                          ⟨sessions.set i s1, .ok s1, true⟩

/-- `POST /api/jobs/:jobId/mock-interview/:id/end`
(src/server.js lines 1488-1548): session lookup, model round trip for
the holistic assessment, extraction, then feedback and `completedAt`
written back in place.  Note there is no completed-session guard. -/
def endRoute (sessions : List InterviewSession) (jobId sid : String)
    (now : String) (model : Except Unit String)
    (parse : String → Option JVal) : SessionRouteOut :=
  match sessions.findIdx? (fun s => s.id == sid && s.jobId == jobId) with
  | none => ⟨sessions, .error .sessionNotFound, false⟩
  | some i =>
      match sessions.get? i with
      | none => ⟨sessions, .error .sessionNotFound, false⟩
      | some s =>
          match model with
          | .error _ => ⟨sessions, .error .modelUnavailable, true⟩
          | .ok raw =>
              match parse (chosenInput raw) with
              | none => ⟨sessions, .error (.parseFailed raw), true⟩
              | some fb =>
                  let s1 := endStep s fb now
                  ⟨sessions.set i s1, .ok s1, true⟩

/-- A registered document template (`document-templates.json` records as
`generateDocx` reads them: a kind tag and a filename). -/
structure DocTemplate where
  kind : String
  filename : String
deriving DecidableEq

/-- `generateDocx` (src/server.js lines 1554-1599) at the granularity of
its outcomes: `templates.find(t => t.type === templateType)` with `null`
when no template of the kind is registered, `null` when the template
file does not exist on disk (`fileExists` abstracts `fs.existsSync`),
`null` when any step of the try block throws (`render` abstracts
template loading, substitution, the repair pass and the file write), and
otherwise the freshly generated filename
`templateType + '-' + uuid + '.docx'`. -/
def generateDocx (templates : List DocTemplate) (templateType : String)
    (fileExists : Bool) (render : Except Unit Unit) (freshId : String) :
    Option String :=
  match templates.find? (fun t => t.kind == templateType) with
  | none => none
  | some _ =>
      if !fileExists then none
      else
        match render with
        | .error _ => none
        | .ok _ => some (templateType ++ "-" ++ freshId ++ ".docx")

/-- Outcome of a generation route: the artifact collection after the
request, the response, and whether the model was invoked. -/
structure GenRouteOut where
  store : List JObj
  resp : Except RouteError JObj
  modelCalled : Bool

/-- The shared shape of `POST /api/resume/tailor`
(src/server.js lines 582-730) and `POST /api/cover-letter/generate`
(lines 736-832): `jobId` presence check, job lookup, model round trip,
extraction via the shared fence snippet, docx generation (its outcome
passed as `docx`), then the artifact upsert and the entry as response. -/
def generateArtifactRoute (jobs : List JObj) (store : List JObj)
    (jobId : Option String) (model : Except Unit String)
    (parse : String → Option JVal) (freshId now : String)
    (docx : Option String) : GenRouteOut :=
  match jobId with
  | none => ⟨store, .error .missingJobId, false⟩
  | some jid =>
      if jid = "" then ⟨store, .error .missingJobId, false⟩
      else
        match jobs.find? (fun j => jvalIsStr (objGet j "id") jid) with
        | none => ⟨store, .error .jobNotFound, false⟩
        | some job =>
            match model with
            | .error _ => ⟨store, .error .modelUnavailable, true⟩
            | .ok raw =>
                match parse (chosenInput raw) with
                | none => ⟨store, .error (.parseFailed raw), true⟩
                | some parsedV =>
                    let e := artifactUpsertE store job jid parsedV freshId now docx
                    ⟨e.2, .ok e.1, true⟩

/-- The strict-alternation check: the list of roles alternates starting
from `r`. -/
def altFrom (r : MsgRole) : List MsgRole → Bool
  | [] => true
  | x :: rest =>
      x == r && altFrom (match r with | .assistant => .user | .user => .assistant) rest

/-- Non-empty and strictly alternating starting with an interviewer
message. -/
def interviewerAlt (l : List MsgRole) : Bool :=
  !l.isEmpty && altFrom .assistant l

/-- `n` repetitions of a candidate/interviewer message pair. -/
def uaBlocks : Nat → List MsgRole
  | 0 => []
  | n + 1 => .user :: .assistant :: uaBlocks n

/-- The role pattern of a session after `n` successful responds. -/
def altPattern (n : Nat) : List MsgRole :=
  .assistant :: uaBlocks n

/-- Number of interviewer messages in a message list. -/
def countInterviewer (msgs : List IMsg) : Nat :=
  (msgs.filter (fun m => m.role == .assistant)).length

theorem objGetAux_append (a : JVal) (l1 l2 : JObj) (k : String) :
    objGetAux a (l1 ++ l2) k = objGetAux (objGetAux a l1 k) l2 k := by
  simp [objGetAux, List.foldl_append]

theorem objGetAux_of_not_mem (a : JVal) (l : JObj) (k : String)
    (h : ∀ p ∈ l, p.1 ≠ k) : objGetAux a l k = a := by
  induction l generalizing a with
  | nil => rfl
  | cons p t ih =>
      have hp : p.1 ≠ k := h p (List.mem_cons_self p t)
      have ht : ∀ q ∈ t, q.1 ≠ k := fun q hq => h q (List.mem_cons_of_mem p hq)
      simp [objGetAux, List.foldl_cons, if_neg hp] at *
      exact ih a ht

theorem objGetAux_of_mem (a b : JVal) (l : JObj) (k : String)
    (h : ∃ p ∈ l, p.1 = k) : objGetAux a l k = objGetAux b l k := by
  induction l generalizing a b with
  | nil => exact absurd h (by simp)
  | cons p t ih =>
      by_cases hkey : ∃ q ∈ t, q.1 = k
      · simp only [objGetAux, List.foldl_cons]
        exact ih _ _ hkey
      · rcases h with ⟨q, hq, hqk⟩
        rcases List.mem_cons.mp hq with rfl | hqt
        · simp [objGetAux, List.foldl_cons, if_pos hqk]
        · exact absurd ⟨q, hqt, hqk⟩ hkey

theorem spreadKVs_no_key (parsed : JVal) (k : String)
    (h : spreadHasKey parsed k = false) : ∀ p ∈ spreadKVs parsed, p.1 ≠ k := by
  intro p hp
  by_contra hk
  have : (spreadKVs parsed).any (fun q => q.1 == k) = true :=
    List.any_eq_true.mpr ⟨p, hp, by simp [hk]⟩
  rw [spreadHasKey] at h
  simp [this] at h

theorem objGet_attachDocx_of_ne (entry : JObj) (docx : Option String)
    (k : String) (h : k ≠ "docxPath") :
    objGet (attachDocx entry docx) k = objGet entry k := by
  cases docx with
  | none => rfl
  | some f =>
      by_cases hf : f = ""
      · simp [attachDocx, hf]
      · have : ("docxPath" : String) ≠ k := fun he => h he.symm
        simp [attachDocx, hf, objGet, objGetAux_append, objGetAux, this]

theorem objGet_mkArtifactEntry_createdAt (prior : Option JObj) (job : JObj)
    (jobId : String) (parsed : JVal) (freshId now : String) :
    objGet (mkArtifactEntry prior job jobId parsed freshId now) "createdAt"
      = (match prior with | some p => objGet p "createdAt" | none => .str now) := by
  have hne : ("updatedAt" : String) ≠ "createdAt" := by decide
  simp [mkArtifactEntry, objGet, objGetAux_append, objGetAux, hne]

theorem objGet_mkArtifactEntry_updatedAt (prior : Option JObj) (job : JObj)
    (jobId : String) (parsed : JVal) (freshId now : String) :
    objGet (mkArtifactEntry prior job jobId parsed freshId now) "updatedAt"
      = .str now := by
  simp [mkArtifactEntry, objGet, objGetAux_append, objGetAux]

theorem objGet_mkArtifactEntry_id (prior : Option JObj) (job : JObj)
    (jobId : String) (parsed : JVal) (freshId now : String)
    (h : spreadHasKey parsed "id" = false) :
    objGet (mkArtifactEntry prior job jobId parsed freshId now) "id"
      = (match prior with | some p => objGet p "id" | none => .str freshId) := by
  have htail : ∀ (v : JVal) (q : String × JVal),
      q ∈ ([("createdAt", v), ("updatedAt", JVal.str now)] : JObj) → q.1 ≠ "id" := by
    intro v q hq
    simp only [List.mem_cons, List.not_mem_nil, or_false] at hq
    rcases hq with rfl | rfl
    · show ("createdAt" : String) ≠ "id"
      decide
    · show ("updatedAt" : String) ≠ "id"
      decide
  have hspread := spreadKVs_no_key parsed "id" h
  unfold mkArtifactEntry objGet
  rw [objGetAux_append, objGetAux_append,
      objGetAux_of_not_mem _ _ _ (htail _), objGetAux_of_not_mem _ _ _ hspread]
  simp [objGetAux]

/-- C2 (amended): for every store, job and result, if no artifact for the
jobId exists the upsert appends exactly one new artifact, whose id is the
fresh identifier provided the result object carries no `id` key of its
own; if one exists the upsert replaces it in place so the count does not
change, the stored artifact's createdAt equals the prior artifact's
createdAt and its id equals the prior id provided the result carries no
`id` key; updatedAt is the new generation time in both cases.  (The
original claim, without the no-`id`-key proviso, fails because `...parsed`
is spread after the identity fields — see the counterexample.) -/
theorem artifactUpsert_singleton_per_job (store : List JObj) (job : JObj)
    (jobId : String) (parsed : JVal) (freshId now : String)
    (docx : Option String) :
    (store.findIdx? (fun r => jvalIsStr (objGet r "jobId") jobId) = none →
       artifactUpsert store job jobId parsed freshId now docx
         = store ++ [(artifactUpsertE store job jobId parsed freshId now docx).1] ∧
       (artifactUpsert store job jobId parsed freshId now docx).length
         = store.length + 1 ∧
       (spreadHasKey parsed "id" = false →
          objGet (artifactUpsertE store job jobId parsed freshId now docx).1 "id"
            = .str freshId) ∧
       objGet (artifactUpsertE store job jobId parsed freshId now docx).1 "createdAt"
         = .str now ∧
       objGet (artifactUpsertE store job jobId parsed freshId now docx).1 "updatedAt"
         = .str now) ∧
    (∀ i p, store.findIdx? (fun r => jvalIsStr (objGet r "jobId") jobId) = some i →
       store.get? i = some p →
       artifactUpsert store job jobId parsed freshId now docx
         = store.set i (artifactUpsertE store job jobId parsed freshId now docx).1 ∧
       (artifactUpsert store job jobId parsed freshId now docx).length
         = store.length ∧
       (spreadHasKey parsed "id" = false →
          objGet (artifactUpsertE store job jobId parsed freshId now docx).1 "id"
            = objGet p "id") ∧
       objGet (artifactUpsertE store job jobId parsed freshId now docx).1 "createdAt"
         = objGet p "createdAt" ∧
       objGet (artifactUpsertE store job jobId parsed freshId now docx).1 "updatedAt"
         = .str now) := by
  have hdocx : ∀ (e : JObj) (k : String), k ≠ "docxPath" →
      objGet (attachDocx e docx) k = objGet e k := fun e k hk =>
    objGet_attachDocx_of_ne e docx k hk
  constructor
  · intro hnone
    simp only [artifactUpsert, artifactUpsertE, hnone]
    refine ⟨by simp, by simp, ?_, ?_, ?_⟩
    · intro hid
      rw [hdocx _ _ (by decide), objGet_mkArtifactEntry_id _ _ _ _ _ _ hid]
    · rw [hdocx _ _ (by decide), objGet_mkArtifactEntry_createdAt]
    · rw [hdocx _ _ (by decide), objGet_mkArtifactEntry_updatedAt]
  · intro i p hsome hget
    simp only [artifactUpsert, artifactUpsertE, hsome, hget]
    refine ⟨by simp, by simp, ?_, ?_, ?_⟩
    · intro hid
      rw [hdocx _ _ (by decide), objGet_mkArtifactEntry_id _ _ _ _ _ _ hid]
    · rw [hdocx _ _ (by decide), objGet_mkArtifactEntry_createdAt]
    · rw [hdocx _ _ (by decide), objGet_mkArtifactEntry_updatedAt]

/-- Witness for C2: a concrete regeneration over a one-artifact store
(result without reserved keys) replaces in place, preserving id and
createdAt and advancing updatedAt; a concrete first generation over an
empty store appends one artifact with the fresh id. -/
theorem artifactUpsert_singleton_per_job_witness :
    (artifactUpsert [[("id", JVal.str "a1"), ("jobId", JVal.str "j1"),
        ("createdAt", JVal.str "t0"), ("updatedAt", JVal.str "t0")]]
        [("id", JVal.str "j1"), ("title", JVal.str "T"), ("company", JVal.str "C")]
        "j1" (JVal.obj [("summary", JVal.str "s")]) "fresh" "t1" none).length = 1 ∧
    objGet ((artifactUpsertE [[("id", JVal.str "a1"), ("jobId", JVal.str "j1"),
        ("createdAt", JVal.str "t0"), ("updatedAt", JVal.str "t0")]]
        [("id", JVal.str "j1"), ("title", JVal.str "T"), ("company", JVal.str "C")]
        "j1" (JVal.obj [("summary", JVal.str "s")]) "fresh" "t1" none).1) "id"
      = JVal.str "a1" ∧
    objGet ((artifactUpsertE [[("id", JVal.str "a1"), ("jobId", JVal.str "j1"),
        ("createdAt", JVal.str "t0"), ("updatedAt", JVal.str "t0")]]
        [("id", JVal.str "j1"), ("title", JVal.str "T"), ("company", JVal.str "C")]
        "j1" (JVal.obj [("summary", JVal.str "s")]) "fresh" "t1" none).1) "createdAt"
      = JVal.str "t0" ∧
    objGet ((artifactUpsertE [[("id", JVal.str "a1"), ("jobId", JVal.str "j1"),
        ("createdAt", JVal.str "t0"), ("updatedAt", JVal.str "t0")]]
        [("id", JVal.str "j1"), ("title", JVal.str "T"), ("company", JVal.str "C")]
        "j1" (JVal.obj [("summary", JVal.str "s")]) "fresh" "t1" none).1) "updatedAt"
      = JVal.str "t1" ∧
    (artifactUpsert [] [("id", JVal.str "j1")] "j1"
        (JVal.obj [("summary", JVal.str "s")]) "fresh" "t1" none).length = 0 + 1 := by
  have h2 := (artifactUpsert_singleton_per_job
    [[("id", JVal.str "a1"), ("jobId", JVal.str "j1"),
      ("createdAt", JVal.str "t0"), ("updatedAt", JVal.str "t0")]]
    [("id", JVal.str "j1"), ("title", JVal.str "T"), ("company", JVal.str "C")]
    "j1" (JVal.obj [("summary", JVal.str "s")]) "fresh" "t1" none).2
    0 [("id", JVal.str "a1"), ("jobId", JVal.str "j1"),
       ("createdAt", JVal.str "t0"), ("updatedAt", JVal.str "t0")] rfl rfl
  have h1 := (artifactUpsert_singleton_per_job [] [("id", JVal.str "j1")] "j1"
    (JVal.obj [("summary", JVal.str "s")]) "fresh" "t1" none).1 rfl
  exact ⟨(h2.2.1).trans (by rfl), (h2.2.2.1 rfl).trans (by rfl),
    (h2.2.2.2.1).trans (by rfl), h2.2.2.2.2, (h1.2.1).trans (by rfl)⟩

/-- Counterexample for C2 as stated: over a store holding the artifact
with id `a1` for job `j1`, a successful generation whose extracted result
object itself contains an `id` key stores that value instead of the prior
id, because `...parsed` is spread after the identity fields; so the
stored artifact's id does not equal the prior artifact's id. -/
theorem artifactUpsert_id_override_counterexample :
    objGet ((artifactUpsert [[("id", JVal.str "a1"), ("jobId", JVal.str "j1"),
        ("createdAt", JVal.str "t0"), ("updatedAt", JVal.str "t0")]]
        [("id", JVal.str "j1")] "j1" (JVal.obj [("id", JVal.str "evil")])
        "fresh" "t1" none).getD 0 []) "id" = JVal.str "evil" ∧
    (artifactUpsert [[("id", JVal.str "a1"), ("jobId", JVal.str "j1"),
        ("createdAt", JVal.str "t0"), ("updatedAt", JVal.str "t0")]]
        [("id", JVal.str "j1")] "j1" (JVal.obj [("id", JVal.str "evil")])
        "fresh" "t1" none).length = 1 ∧
    JVal.str "evil" ≠ JVal.str "a1" := by
  refine ⟨rfl, rfl, fun h => ?_⟩
  injection h with h1
  exact absurd h1 (by decide)

/-- C10: in the artifact entry the extracted result is spread after the
identity fields and before the timestamps, so for every result the stored
createdAt and updatedAt are the store-assigned timestamps (result fields
of those names are ignored), while a result carrying `id`, `jobId`,
`jobTitle` or `company` keys overrides the store's values for those
fields, as the concrete instance shows. -/
theorem artifactEntry_spread_order :
    (∀ (prior : Option JObj) (job : JObj) (jobId : String) (parsed : JVal)
       (freshId now : String) (docx : Option String),
       objGet (attachDocx (mkArtifactEntry prior job jobId parsed freshId now) docx)
           "createdAt"
         = (match prior with | some p => objGet p "createdAt" | none => .str now) ∧
       objGet (attachDocx (mkArtifactEntry prior job jobId parsed freshId now) docx)
           "updatedAt"
         = .str now) ∧
    (objGet (mkArtifactEntry
        (some [("id", JVal.str "a1"), ("jobId", JVal.str "j1")])
        [("id", JVal.str "j1"), ("title", JVal.str "T"), ("company", JVal.str "C")]
        "j1"
        (JVal.obj [("id", JVal.str "rid"), ("jobId", JVal.str "rjob"),
                   ("jobTitle", JVal.str "rtitle"), ("company", JVal.str "rco"),
                   ("createdAt", JVal.str "rc"), ("updatedAt", JVal.str "ru")])
        "fresh" "t1") "id" = JVal.str "rid" ∧
     objGet (mkArtifactEntry
        (some [("id", JVal.str "a1"), ("jobId", JVal.str "j1")])
        [("id", JVal.str "j1"), ("title", JVal.str "T"), ("company", JVal.str "C")]
        "j1"
        (JVal.obj [("id", JVal.str "rid"), ("jobId", JVal.str "rjob"),
                   ("jobTitle", JVal.str "rtitle"), ("company", JVal.str "rco"),
                   ("createdAt", JVal.str "rc"), ("updatedAt", JVal.str "ru")])
        "fresh" "t1") "jobId" = JVal.str "rjob" ∧
     objGet (mkArtifactEntry
        (some [("id", JVal.str "a1"), ("jobId", JVal.str "j1")])
        [("id", JVal.str "j1"), ("title", JVal.str "T"), ("company", JVal.str "C")]
        "j1"
        (JVal.obj [("id", JVal.str "rid"), ("jobId", JVal.str "rjob"),
                   ("jobTitle", JVal.str "rtitle"), ("company", JVal.str "rco"),
                   ("createdAt", JVal.str "rc"), ("updatedAt", JVal.str "ru")])
        "fresh" "t1") "jobTitle" = JVal.str "rtitle" ∧
     objGet (mkArtifactEntry
        (some [("id", JVal.str "a1"), ("jobId", JVal.str "j1")])
        [("id", JVal.str "j1"), ("title", JVal.str "T"), ("company", JVal.str "C")]
        "j1"
        (JVal.obj [("id", JVal.str "rid"), ("jobId", JVal.str "rjob"),
                   ("jobTitle", JVal.str "rtitle"), ("company", JVal.str "rco"),
                   ("createdAt", JVal.str "rc"), ("updatedAt", JVal.str "ru")])
        "fresh" "t1") "company" = JVal.str "rco" ∧
     objGet (mkArtifactEntry
        (some [("id", JVal.str "a1"), ("jobId", JVal.str "j1")])
        [("id", JVal.str "j1"), ("title", JVal.str "T"), ("company", JVal.str "C")]
        "j1"
        (JVal.obj [("id", JVal.str "rid"), ("jobId", JVal.str "rjob"),
                   ("jobTitle", JVal.str "rtitle"), ("company", JVal.str "rco"),
                   ("createdAt", JVal.str "rc"), ("updatedAt", JVal.str "ru")])
        "fresh" "t1") "createdAt" = JVal.undef ∧
     objGet (mkArtifactEntry
        (some [("id", JVal.str "a1"), ("jobId", JVal.str "j1")])
        [("id", JVal.str "j1"), ("title", JVal.str "T"), ("company", JVal.str "C")]
        "j1"
        (JVal.obj [("id", JVal.str "rid"), ("jobId", JVal.str "rjob"),
                   ("jobTitle", JVal.str "rtitle"), ("company", JVal.str "rco"),
                   ("createdAt", JVal.str "rc"), ("updatedAt", JVal.str "ru")])
        "fresh" "t1") "updatedAt" = JVal.str "t1") := by
  refine ⟨fun prior job jobId parsed freshId now docx => ?_,
    rfl, rfl, rfl, rfl, rfl, rfl⟩
  refine ⟨?_, ?_⟩
  · rw [objGet_attachDocx_of_ne _ _ _ (by decide), objGet_mkArtifactEntry_createdAt]
  · rw [objGet_attachDocx_of_ne _ _ _ (by decide), objGet_mkArtifactEntry_updatedAt]

theorem extractStructured_eq (parse : String → Option JVal) (raw : String) :
    extractStructured parse raw
      = (match parse (chosenInput raw) with
         | some v => .ok v
         | none => .failed raw) := rfl

theorem chosenInput_of_fence (raw : String) (cap : List Char)
    (h : firstFence raw.data = some cap) :
    chosenInput raw = String.mk (jsTrim cap) := by
  simp [chosenInput, h]

theorem chosenInput_of_no_fence (raw : String)
    (h : firstFence raw.data = none) :
    chosenInput raw = String.mk (jsTrim raw.data) := by
  simp [chosenInput, h]

/-- C1: for every raw model text, if the fence regex finds a capture whose
trimmed content parses, extraction returns exactly that parsed value; if
no fence is found and the whole raw text parses, extraction returns that
parsed value; if the single parse attempt on the chosen input fails,
extraction fails carrying the original raw text verbatim; and exactly one
string is ever handed to the parser — the chosen input of the taken path. -/
theorem extractStructured_spec (parse : String → Option JVal) (raw : String) :
    (∀ cap v, firstFence raw.data = some cap →
       parse (String.mk (jsTrim cap)) = some v →
       extractStructured parse raw = .ok v) ∧
    (∀ v, firstFence raw.data = none →
       parse (String.mk (jsTrim raw.data)) = some v →
       extractStructured parse raw = .ok v) ∧
    (parse (chosenInput raw) = none →
       extractStructured parse raw = .failed raw) ∧
    (extractTraced parse raw).1 = extractStructured parse raw ∧
    (extractTraced parse raw).2 = [chosenInput raw] := by
  refine ⟨?_, ?_, ?_, rfl, rfl⟩
  · intro cap v hf hp
    rw [extractStructured_eq, chosenInput_of_fence raw cap hf, hp]
  · intro v hf hp
    rw [extractStructured_eq, chosenInput_of_no_fence raw hf, hp]
  · intro hp
    rw [extractStructured_eq, hp]

/-- A stand-in for `JSON.parse` that recognises exactly the text of the
empty JSON object. -/
def parseStub : String → Option JVal :=
  fun s => if s = "\x7b\x7d" then some (.obj []) else none

/-- Witness for C1: fenced valid JSON is extracted, the same JSON bare is
extracted to the same value, and garbage fails carrying the raw text. -/
theorem extractStructured_spec_witness :
    extractStructured parseStub "```json\n\x7b\x7d\n```" = .ok (.obj []) ∧
    extractStructured parseStub "\x7b\x7d" = .ok (.obj []) ∧
    extractStructured parseStub "garbage" = .failed "garbage" :=
  ⟨(extractStructured_spec parseStub "```json\n\x7b\x7d\n```").1
      ('\x7b' :: '\x7d' :: '\n' :: []) (.obj []) (by decide) rfl,
   (extractStructured_spec parseStub "\x7b\x7d").2.1 (.obj []) (by decide) rfl,
   (extractStructured_spec parseStub "garbage").2.2.1 rfl⟩

theorem stringMk_eq_empty_iff (l : List Char) : String.mk l = "" ↔ l = [] := by
  constructor
  · intro h
    exact congrArg String.data h
  · intro h
    rw [h]

theorem jsTrim_eq_nil_iff (l : List Char) :
    jsTrim l = [] ↔ ∀ c ∈ l, jsWhitespace c = true := by
  unfold jsTrim
  rw [List.reverse_eq_nil_iff, List.dropWhile_eq_nil_iff]
  constructor
  · intro h c hc
    rcases List.mem_append.mp
        ((List.takeWhile_append_dropWhile (p := jsWhitespace) (l := l)) ▸ hc) with
      h1 | h1
    · exact List.mem_takeWhile_imp h1
    · exact h c (List.mem_reverse.mpr h1)
  · intro h c hc
    exact h c ((List.dropWhile_sublist _).subset (List.mem_reverse.mp hc))

theorem jsWhitespace_imp_sepClass (c : Char) (h : jsWhitespace c = true) :
    sepClass c = true := by
  simp [sepClass, h]

theorem stripSeps_data (texts : String) :
    (stripSeps texts).data = texts.data.filter (fun c => !sepClass c) := rfl

/-- C3 (amended): the repair pass removes a paragraph if and only if its
concatenated visible text contains at least one non-whitespace character
and consists entirely of separator-class characters; in particular a
paragraph containing any non-separator visible character is never
removed.  (The original claim said "non-empty" rather than "contains a
non-whitespace character": a paragraph whose visible text is non-empty
but all whitespace is kept, because the code guards on `texts.trim()` —
see the counterexample.) -/
theorem repairPass_removal_iff (texts : String) (doc : List (List String))
    (p : List String) :
    (shouldRemoveParagraph texts = true ↔
       ((∃ c ∈ texts.data, jsWhitespace c = false) ∧
        ∀ c ∈ texts.data, sepClass c = true)) ∧
    ((∃ c ∈ texts.data, sepClass c = false) →
       shouldRemoveParagraph texts = false) ∧
    (p ∈ repairPass doc ↔
       p ∈ doc ∧ shouldRemoveParagraph (String.join p) = false) := by
  have hmain : shouldRemoveParagraph texts = true ↔
      ((∃ c ∈ texts.data, jsWhitespace c = false) ∧
       ∀ c ∈ texts.data, sepClass c = true) := by
    unfold shouldRemoveParagraph
    rw [Bool.and_eq_true, bne_iff_ne, beq_iff_eq, Ne, stringMk_eq_empty_iff,
        stringMk_eq_empty_iff, jsTrim_eq_nil_iff, jsTrim_eq_nil_iff,
        stripSeps_data]
    constructor
    · rintro ⟨h1, h2⟩
      have hall : ∀ c ∈ texts.data, sepClass c = true := by
        intro c hc
        by_contra hsep
        have hcf : c ∈ texts.data.filter (fun c => !sepClass c) :=
          List.mem_filter.mpr ⟨hc, by simp [Bool.eq_false_iff.mpr hsep]⟩
        have hw := h2 c hcf
        have := List.mem_filter.mp hcf
        exact hsep (jsWhitespace_imp_sepClass c hw)
      refine ⟨?_, hall⟩
      by_contra hno
      push_neg at hno
      exact h1 (fun c hc => by
        cases hw : jsWhitespace c
        · exact absurd hw (hno c hc)
        · rfl)
    · rintro ⟨⟨c0, hc0, hw0⟩, hall⟩
      constructor
      · intro hws
        rw [hws c0 hc0] at hw0
        exact Bool.true_eq_false.mp hw0
      · intro c hc
        have := List.mem_filter.mp hc
        rw [hall c this.1] at this
        simp at this
  refine ⟨hmain, ?_, ?_⟩
  · rintro ⟨c0, hc0, hs0⟩
    cases hrem : shouldRemoveParagraph texts
    · rfl
    · have := (hmain.mp hrem).2 c0 hc0
      rw [this] at hs0
      exact absurd hs0 (by simp)
  · unfold repairPass
    rw [List.mem_filter]
    constructor
    · rintro ⟨h1, h2⟩
      exact ⟨h1, by simpa using h2⟩
    · rintro ⟨h1, h2⟩
      exact ⟨h1, by simpa using h2⟩

/-- Witness for C3: the paragraph `"Skills — Python"` is kept and the
paragraph `" — "` is removed. -/
theorem repairPass_removal_iff_witness :
    shouldRemoveParagraph "Skills — Python" = false ∧
    shouldRemoveParagraph " — " = true :=
  ⟨(repairPass_removal_iff "Skills — Python" [] []).2.1
      ⟨'S', by decide, by decide⟩,
   (repairPass_removal_iff " — " [] []).1.mpr
      ⟨⟨'—', by decide, by decide⟩, by decide⟩⟩

/-- Counterexample for C3 as stated: a paragraph whose visible text is a
single space is non-empty and consists entirely of separator-class
characters, yet the repair pass keeps it, because the removal test
requires `texts.trim()` to be truthy. -/
theorem repairPass_whitespace_counterexample :
    shouldRemoveParagraph " " = false ∧
    (" " : String).data ≠ [] ∧
    (∀ c ∈ (" " : String).data, sepClass c = true) ∧
    repairPass [[" "]] = [[" "]] :=
  ⟨rfl, by decide, by decide, rfl⟩

theorem jsIndexOr_eq (xs : List String) (i : Nat) :
    jsIndexOr xs i = (xs.get? i).getD "" := by
  unfold jsIndexOr
  cases h : xs.get? i with
  | none => rfl
  | some s =>
      by_cases hs : s = ""
      · simp [hs]
      · simp [hs]

theorem expAt_eq (xs : List ResumeExp) (e : Nat) :
    expAt xs e = (xs.get? e).getD ⟨"", "", "", "", []⟩ := rfl

theorem slotLookup_isSome_of_mem (m : List (String × String)) (n : String)
    (h : n ∈ m.map Prod.fst) : (slotLookup m n).isSome = true := by
  induction m with
  | nil => simp at h
  | cons q rest ih =>
      obtain ⟨k1, v⟩ := q
      by_cases hq : k1 = n
      · simp [slotLookup, hq]
      · rw [List.map_cons] at h
        rcases List.mem_cons.mp h with h1 | h1
        · exact absurd h1.symm hq
        · simp only [slotLookup, if_neg hq]
          exact ih h1

theorem skillSlots_take (pfx : String) (skills : List String) :
    skillSlots pfx (skills.take 6) = skillSlots pfx skills := by
  unfold skillSlots
  apply List.map_congr_left
  intro i hi
  have hlt : i < 6 := List.mem_range.mp hi
  rw [jsIndexOr_eq, jsIndexOr_eq, List.get?_take hlt]

theorem expSlots_take (experiences : List ResumeExp) :
    expSlots (experiences.take 4) = expSlots experiences := by
  unfold expSlots
  congr 1
  apply List.map_congr_left
  intro e he
  have hlt : e < 4 := List.mem_range.mp he
  have hexp : expAt (experiences.take 4) e = expAt experiences e := by
    rw [expAt_eq, expAt_eq, List.get?_take hlt]
  rw [hexp]

/-- C4: the template field mapper is total and deterministic — for every
generation result (including empty lists) the slot map's keys are exactly
the fixed slot schema, every fixed slot name looks up to a defined string,
mapping the same result twice yields identical maps, each skill category
fills slots 1..6 with the (i-1)-th skill or the empty string, skills
beyond 6 and experiences beyond 4 are silently dropped (the map is
unchanged by truncating them), and bullet slots are capped per experience
position at 4, 3, 3, 2 with each holding the (b-1)-th bullet or the empty
string. -/
theorem mapToSlots_total_capped (profile : JPProfile) (job : JPJob)
    (r : ResumeResult) (dateStr : String) :
    mapToSlots profile job r dateStr = mapToSlots profile job r dateStr ∧
    (mapToSlots profile job r dateStr).map Prod.fst = fixedSlotNames ∧
    (∀ n ∈ fixedSlotNames,
       (slotLookup (mapToSlots profile job r dateStr) n).isSome = true) ∧
    (∀ i, 1 ≤ i → i ≤ 6 →
       slotLookup (mapToSlots profile job r dateStr) ("mgmt_" ++ toString i)
         = some ((r.management.get? (i - 1)).getD "") ∧
       slotLookup (mapToSlots profile job r dateStr) ("design_" ++ toString i)
         = some ((r.design.get? (i - 1)).getD "") ∧
       slotLookup (mapToSlots profile job r dateStr) ("tools_" ++ toString i)
         = some ((r.tools.get? (i - 1)).getD "")) ∧
    mapToSlots profile job (truncResult r) dateStr
      = mapToSlots profile job r dateStr ∧
    (∀ e b, 1 ≤ e → e ≤ 4 → 1 ≤ b → b ≤ bulletCounts.getD (e - 1) 0 →
       slotLookup (mapToSlots profile job r dateStr)
           ("exp" ++ toString e ++ "_bullet" ++ toString b)
         = some ((((r.experiences.get? (e - 1)).getD ⟨"", "", "", "", []⟩).bullets.get?
             (b - 1)).getD "")) := by
  refine ⟨rfl, rfl, ?_, ?_, ?_, ?_⟩
  · intro n hn
    apply slotLookup_isSome_of_mem
    rw [show (mapToSlots profile job r dateStr).map Prod.fst = fixedSlotNames from rfl]
    exact hn
  · intro i h1 h6
    interval_cases i
    · exact ⟨congrArg some (jsIndexOr_eq r.management 0),
        congrArg some (jsIndexOr_eq r.design 0),
        congrArg some (jsIndexOr_eq r.tools 0)⟩
    · exact ⟨congrArg some (jsIndexOr_eq r.management 1),
        congrArg some (jsIndexOr_eq r.design 1),
        congrArg some (jsIndexOr_eq r.tools 1)⟩
    · exact ⟨congrArg some (jsIndexOr_eq r.management 2),
        congrArg some (jsIndexOr_eq r.design 2),
        congrArg some (jsIndexOr_eq r.tools 2)⟩
    · exact ⟨congrArg some (jsIndexOr_eq r.management 3),
        congrArg some (jsIndexOr_eq r.design 3),
        congrArg some (jsIndexOr_eq r.tools 3)⟩
    · exact ⟨congrArg some (jsIndexOr_eq r.management 4),
        congrArg some (jsIndexOr_eq r.design 4),
        congrArg some (jsIndexOr_eq r.tools 4)⟩
    · exact ⟨congrArg some (jsIndexOr_eq r.management 5),
        congrArg some (jsIndexOr_eq r.design 5),
        congrArg some (jsIndexOr_eq r.tools 5)⟩
  · unfold mapToSlots
    rw [show headerSlots profile job (truncResult r) dateStr
          = headerSlots profile job r dateStr from rfl,
        show (truncResult r).management = r.management.take 6 from rfl,
        show (truncResult r).design = r.design.take 6 from rfl,
        show (truncResult r).tools = r.tools.take 6 from rfl,
        show (truncResult r).experiences = r.experiences.take 4 from rfl,
        skillSlots_take, skillSlots_take, skillSlots_take, expSlots_take]
  · intro e b he1 he4 hb1 hbc
    interval_cases e
    · have hb4 : b ≤ 4 := hbc
      interval_cases b
      · exact congrArg some (jsIndexOr_eq (expAt r.experiences 0).bullets 0)
      · exact congrArg some (jsIndexOr_eq (expAt r.experiences 0).bullets 1)
      · exact congrArg some (jsIndexOr_eq (expAt r.experiences 0).bullets 2)
      · exact congrArg some (jsIndexOr_eq (expAt r.experiences 0).bullets 3)
    · have hb3 : b ≤ 3 := hbc
      interval_cases b
      · exact congrArg some (jsIndexOr_eq (expAt r.experiences 1).bullets 0)
      · exact congrArg some (jsIndexOr_eq (expAt r.experiences 1).bullets 1)
      · exact congrArg some (jsIndexOr_eq (expAt r.experiences 1).bullets 2)
    · have hb3 : b ≤ 3 := hbc
      interval_cases b
      · exact congrArg some (jsIndexOr_eq (expAt r.experiences 2).bullets 0)
      · exact congrArg some (jsIndexOr_eq (expAt r.experiences 2).bullets 1)
      · exact congrArg some (jsIndexOr_eq (expAt r.experiences 2).bullets 2)
    · have hb2 : b ≤ 2 := hbc
      interval_cases b
      · exact congrArg some (jsIndexOr_eq (expAt r.experiences 3).bullets 0)
      · exact congrArg some (jsIndexOr_eq (expAt r.experiences 3).bullets 1)

/-- Witness for C4: a category with 5 skills fills slot 5 and leaves slot
6 empty; a category with 8 skills maps `a6` into slot 6 (dropping the
rest); a bullet slot with no experience data is the empty string. -/
theorem mapToSlots_total_capped_witness :
    slotLookup (mapToSlots ⟨"N", "E", "P", "L", "T", none, none⟩ ⟨"JT", "CO"⟩
        ⟨"body", "sum", ["s1", "s2", "s3", "s4", "s5"], [], [], []⟩ "D")
        ("mgmt_" ++ toString 5) = some "s5" ∧
    slotLookup (mapToSlots ⟨"N", "E", "P", "L", "T", none, none⟩ ⟨"JT", "CO"⟩
        ⟨"body", "sum", ["s1", "s2", "s3", "s4", "s5"], [], [], []⟩ "D")
        ("mgmt_" ++ toString 6) = some "" ∧
    slotLookup (mapToSlots ⟨"N", "E", "P", "L", "T", none, none⟩ ⟨"JT", "CO"⟩
        ⟨"body", "sum", ["a1", "a2", "a3", "a4", "a5", "a6", "a7", "a8"], [], [], []⟩ "D")
        ("mgmt_" ++ toString 6) = some "a6" ∧
    slotLookup (mapToSlots ⟨"N", "E", "P", "L", "T", none, none⟩ ⟨"JT", "CO"⟩
        ⟨"body", "sum", [], [], [], []⟩ "D")
        ("exp" ++ toString 1 ++ "_bullet" ++ toString 4) = some "" :=
  ⟨(((mapToSlots_total_capped ⟨"N", "E", "P", "L", "T", none, none⟩ ⟨"JT", "CO"⟩
        ⟨"body", "sum", ["s1", "s2", "s3", "s4", "s5"], [], [], []⟩ "D").2.2.2.1
        5 (by decide) (by decide)).1).trans (by rfl),
   (((mapToSlots_total_capped ⟨"N", "E", "P", "L", "T", none, none⟩ ⟨"JT", "CO"⟩
        ⟨"body", "sum", ["s1", "s2", "s3", "s4", "s5"], [], [], []⟩ "D").2.2.2.1
        6 (by decide) (by decide)).1).trans (by rfl),
   (((mapToSlots_total_capped ⟨"N", "E", "P", "L", "T", none, none⟩ ⟨"JT", "CO"⟩
        ⟨"body", "sum", ["a1", "a2", "a3", "a4", "a5", "a6", "a7", "a8"], [], [], []⟩
        "D").2.2.2.1 6 (by decide) (by decide)).1).trans (by rfl),
   ((mapToSlots_total_capped ⟨"N", "E", "P", "L", "T", none, none⟩ ⟨"JT", "CO"⟩
        ⟨"body", "sum", [], [], [], []⟩ "D").2.2.2.2.2
        1 4 (by decide) (by decide) (by decide) (by decide)).trans (by rfl)⟩

theorem uaBlocks_append (n : Nat) :
    uaBlocks n ++ [.user, .assistant] = uaBlocks (n + 1) := by
  induction n with
  | zero => rfl
  | succ m ih =>
      show MsgRole.user :: MsgRole.assistant :: (uaBlocks m ++ [.user, .assistant])
        = uaBlocks (m + 1 + 1)
      rw [ih]
      rfl

theorem altPattern_append (n : Nat) :
    altPattern n ++ [.user, .assistant] = altPattern (n + 1) := by
  show MsgRole.assistant :: (uaBlocks n ++ [.user, .assistant]) = altPattern (n + 1)
  rw [uaBlocks_append]
  rfl

theorem altFrom_user_uaBlocks (n : Nat) : altFrom .user (uaBlocks n) = true := by
  induction n with
  | zero => rfl
  | succ m ih => simpa [uaBlocks, altFrom] using ih

theorem interviewerAlt_altPattern (n : Nat) :
    interviewerAlt (altPattern n) = true := by
  simp [interviewerAlt, altPattern, altFrom, altFrom_user_uaBlocks n]

theorem uaBlocks_length (n : Nat) : (uaBlocks n).length = 2 * n := by
  induction n with
  | zero => rfl
  | succ m ih => simp [uaBlocks, ih]; omega

theorem altPattern_length (n : Nat) : (altPattern n).length = 2 * n + 1 := by
  simp [altPattern, uaBlocks_length]

theorem uaBlocks_count_assistant (n : Nat) :
    (uaBlocks n).count .assistant = n := by
  induction n with
  | zero => rfl
  | succ m ih => simp [uaBlocks, List.count_cons, ih]

theorem countInterviewer_of_pattern (msgs : List IMsg) (n : Nat)
    (h : msgs.map IMsg.role = altPattern n) : countInterviewer msgs = n + 1 := by
  unfold countInterviewer
  rw [← List.countP_eq_length_filter]
  have hmap : List.countP (fun m => m.role == MsgRole.assistant) msgs
      = List.countP (fun r => r == MsgRole.assistant) (msgs.map IMsg.role) := by
    rw [List.countP_map]
    rfl
  rw [hmap, h]
  show (altPattern n).count MsgRole.assistant = n + 1
  simp [altPattern, List.count_cons, uaBlocks_count_assistant]

theorem applyResponds_pattern (turns : List (String × ParsedTurn)) :
    ∀ (s : InterviewSession) (n : Nat) (s1 : InterviewSession),
    applyResponds s turns = some s1 →
    s.messages.map IMsg.role = altPattern n →
    s.questionCount = n + 1 →
    s1.messages.map IMsg.role = altPattern (n + turns.length) ∧
    s1.questionCount = (n + turns.length) + 1 := by
  induction turns with
  | nil =>
      intro s n s1 h h1 h2
      cases h
      simpa using ⟨h1, h2⟩
  | cons p rest ih =>
      intro s n s1 h h1 h2
      obtain ⟨a, t⟩ := p
      rw [applyResponds] at h
      cases hr : respondOk? s a t with
      | none => rw [hr] at h; exact absurd h (by simp)
      | some s2 =>
          rw [hr] at h
          have hs2 : s2 = respondStep s a t := by
            unfold respondOk? at hr
            split at hr
            · exact absurd hr (by simp)
            · split at hr
              · exact absurd hr (by simp)
              · exact (Option.some.inj hr).symm
          subst hs2
          have h1' : (respondStep s a t).messages.map IMsg.role
              = altPattern (n + 1) := by
            show (s.messages ++ _).map IMsg.role = altPattern (n + 1)
            rw [List.map_append, h1]
            exact altPattern_append n
          have h2' : (respondStep s a t).questionCount = (n + 1) + 1 := by
            show s.questionCount + 1 = (n + 1) + 1
            rw [h2]
          have hrec := ih (respondStep s a t) (n + 1) s1 h h1' h2'
          have hlen : n + ((a, t) :: rest).length = (n + 1) + rest.length := by
            simp only [List.length_cons]
            omega
          rw [hlen]
          exact hrec

/-- C5: every session reachable by `start` followed by N successful
responds and at most one `end` has a messages list that strictly
alternates roles starting with an interviewer message, a `questionCount`
equal to the number of interviewer messages, `questionCount = N + 1`,
and `2N + 1` messages; ending the session changes none of these and
stamps `completedAt`. -/
theorem interviewSession_invariant (jobId freshId createdAt : String)
    (p : ParsedOpening) (turns : List (String × ParsedTurn))
    (s : InterviewSession) (fb : JVal) (endTime : String)
    (h : applyResponds (startSessionObj jobId freshId createdAt p) turns = some s) :
    interviewerAlt (s.messages.map IMsg.role) = true ∧
    s.questionCount = countInterviewer s.messages ∧
    s.questionCount = turns.length + 1 ∧
    s.messages.length = 2 * turns.length + 1 ∧
    interviewerAlt ((endStep s fb endTime).messages.map IMsg.role) = true ∧
    (endStep s fb endTime).questionCount
      = countInterviewer (endStep s fb endTime).messages ∧
    (endStep s fb endTime).messages.length = 2 * turns.length + 1 ∧
    (endStep s fb endTime).completedAt = some endTime := by
  have hstart1 : (startSessionObj jobId freshId createdAt p).messages.map IMsg.role
      = altPattern 0 := rfl
  have hstart2 : (startSessionObj jobId freshId createdAt p).questionCount = 0 + 1 := rfl
  have hmain := applyResponds_pattern turns (startSessionObj jobId freshId createdAt p)
    0 s h hstart1 hstart2
  have hpat : s.messages.map IMsg.role = altPattern turns.length := by
    have := hmain.1
    simpa using this
  have hqc : s.questionCount = turns.length + 1 := by
    have := hmain.2
    simpa using this
  have halt : interviewerAlt (s.messages.map IMsg.role) = true := by
    rw [hpat]
    exact interviewerAlt_altPattern turns.length
  have hcount : s.questionCount = countInterviewer s.messages := by
    rw [countInterviewer_of_pattern s.messages turns.length hpat, hqc]
  have hlen : s.messages.length = 2 * turns.length + 1 := by
    have : (s.messages.map IMsg.role).length = (altPattern turns.length).length :=
      congrArg List.length hpat
    rw [List.length_map, altPattern_length] at this
    exact this
  have hend_msgs : (endStep s fb endTime).messages = s.messages := rfl
  have hend_qc : (endStep s fb endTime).questionCount = s.questionCount := rfl
  exact ⟨halt, hcount, hqc, hlen,
    by rw [hend_msgs]; exact halt,
    by rw [hend_msgs, hend_qc]; exact hcount,
    by rw [hend_msgs]; exact hlen,
    rfl⟩

/-- Witness for C5: a concrete trace of `start` followed by one
successful respond yields questionCount 2 and 3 strictly alternating
messages; ending it stamps `completedAt`. -/
theorem interviewSession_invariant_witness :
    (respondStep (startSessionObj "j1" "s1" "t0" ⟨"q1", some "behavioral", some "tip1"⟩)
        "my answer" ⟨"q2", some "technical", some "tip2", some "good"⟩).questionCount
      = 1 + 1 ∧
    (respondStep (startSessionObj "j1" "s1" "t0" ⟨"q1", some "behavioral", some "tip1"⟩)
        "my answer" ⟨"q2", some "technical", some "tip2", some "good"⟩).messages.length
      = 2 * 1 + 1 ∧
    interviewerAlt ((respondStep
        (startSessionObj "j1" "s1" "t0" ⟨"q1", some "behavioral", some "tip1"⟩)
        "my answer"
        ⟨"q2", some "technical", some "tip2", some "good"⟩).messages.map IMsg.role)
      = true := by
  have h := interviewSession_invariant "j1" "s1" "t0" ⟨"q1", some "behavioral", some "tip1"⟩
    [("my answer", ⟨"q2", some "technical", some "tip2", some "good"⟩)]
    (respondStep (startSessionObj "j1" "s1" "t0" ⟨"q1", some "behavioral", some "tip1"⟩)
      "my answer" ⟨"q2", some "technical", some "tip2", some "good"⟩)
    JVal.null "t9" (by rfl)
  exact ⟨h.2.2.1, h.2.2.2.1, h.1⟩

/-- C6 (amended): for every completed session found by a respond call,
the request fails before any model call and leaves the persisted
sessions unchanged, never silently no-opping: with a non-blank answer it
fails with the distinct "session already complete" error, while a blank
answer fails first with the "Answer is required" validation error (the
original claim said every respond call fails with the completed error;
the blank-answer case fails with the validation error instead — see the
counterexample). -/
theorem respondRoute_completed_rejected (sessions : List InterviewSession)
    (jobId sid : String) (answer : Option String) (model : Except Unit String)
    (parse : String → Option ParsedTurn) (i : Nat) (s : InterviewSession)
    (hfind : sessions.findIdx? (fun s => s.id == sid && s.jobId == jobId) = some i)
    (hget : sessions.get? i = some s)
    (hdone : optStrTruthy s.completedAt = true) :
    (respondRoute sessions jobId sid answer model parse).store = sessions ∧
    (respondRoute sessions jobId sid answer model parse).modelCalled = false ∧
    (∀ a, answer = some a → ¬(a = "" ∨ String.mk (jsTrim a.data) = "") →
       (respondRoute sessions jobId sid answer model parse).resp
         = .error .alreadyComplete) ∧
    ((answer = none ∨ ∃ a, answer = some a ∧ (a = "" ∨ String.mk (jsTrim a.data) = "")) →
       (respondRoute sessions jobId sid answer model parse).resp
         = .error .answerRequired) ∧
    (∃ e, (respondRoute sessions jobId sid answer model parse).resp = .error e) := by
  cases answer with
  | none =>
      exact ⟨rfl, rfl, fun a ha => Option.noConfusion ha, fun _ => rfl,
        ⟨.answerRequired, rfl⟩⟩
  | some a =>
      by_cases hc : a = "" ∨ String.mk (jsTrim a.data) = ""
      · have hb : (decide (a = "") || decide (String.mk (jsTrim a.data) = "")) = true := by
          rcases hc with h1 | h1 <;> simp [h1]
        simp only [respondRoute, hb, if_true]
        refine ⟨by trivial, by trivial,
          fun a1 ha1 hno => absurd ((Option.some.inj ha1) ▸ hc) hno,
          fun _ => by trivial, ⟨.answerRequired, by trivial⟩⟩
      · push_neg at hc
        have hb : (decide (a = "") || decide (String.mk (jsTrim a.data) = "")) = false := by
          simp [hc.1, hc.2]
        simp only [respondRoute, hb, Bool.false_eq_true, if_false, hfind, hget, hdone,
          if_true]
        refine ⟨by trivial, by trivial, fun a1 ha1 hno => by trivial, ?_,
          ⟨.alreadyComplete, by trivial⟩⟩
        rintro (h1 | ⟨a1, ha1, hor⟩)
        · exact Option.noConfusion h1
        · rcases Option.some.inj ha1 with rfl
          rcases hor with h1 | h1
          · exact absurd h1 hc.1
          · exact absurd h1 hc.2

/-- Witness for C6: a respond with a non-blank answer on a concrete
completed session fails with the "already complete" error, leaves the
store unchanged and never invokes the model. -/
theorem respondRoute_completed_rejected_witness :
    (respondRoute [⟨"s1", "j1", [⟨.assistant, "q1", some "behavioral", some "tip", none⟩],
        1, none, "t0", some "t1"⟩] "j1" "s1" (some "my answer") (.ok "raw")
        (fun _ => none)).resp = .error .alreadyComplete ∧
    (respondRoute [⟨"s1", "j1", [⟨.assistant, "q1", some "behavioral", some "tip", none⟩],
        1, none, "t0", some "t1"⟩] "j1" "s1" (some "my answer") (.ok "raw")
        (fun _ => none)).store
      = [⟨"s1", "j1", [⟨.assistant, "q1", some "behavioral", some "tip", none⟩],
          1, none, "t0", some "t1"⟩] ∧
    (respondRoute [⟨"s1", "j1", [⟨.assistant, "q1", some "behavioral", some "tip", none⟩],
        1, none, "t0", some "t1"⟩] "j1" "s1" (some "my answer") (.ok "raw")
        (fun _ => none)).modelCalled = false := by
  have h := respondRoute_completed_rejected
    [⟨"s1", "j1", [⟨.assistant, "q1", some "behavioral", some "tip", none⟩],
      1, none, "t0", some "t1"⟩] "j1" "s1" (some "my answer") (.ok "raw")
    (fun _ => none) 0
    ⟨"s1", "j1", [⟨.assistant, "q1", some "behavioral", some "tip", none⟩],
      1, none, "t0", some "t1"⟩ rfl rfl rfl
  exact ⟨h.2.2.1 "my answer" rfl (by rintro (h1 | h1) <;> exact absurd h1 (by decide)),
    h.1, h.2.1⟩

/-- Counterexample for C6 as stated: a respond call with a blank answer
on a completed session fails with the "Answer is required" validation
error, not the "session already complete" error. -/
theorem respondRoute_blank_on_completed_counterexample :
    (respondRoute [⟨"s1", "j1", [⟨.assistant, "q1", none, none, none⟩],
        1, none, "t0", some "t1"⟩] "j1" "s1" (some "") (.ok "raw")
        (fun _ => none)).resp = .error .answerRequired ∧
    optStrTruthy (some "t1") = true ∧
    RouteError.answerRequired ≠ RouteError.alreadyComplete :=
  ⟨rfl, rfl, by decide⟩

/-- C7 (amended): a second `end` call on an already-Completed session is
not rejected — the route has no completed-session guard, so it invokes
the model again, and when extraction succeeds it overwrites the stored
feedback and `completedAt` with the new assessment; only an unknown
session id is rejected.  (The original claim said the second call is
rejected without reprocessing — see the counterexample.) -/
theorem endRoute_reprocesses_completed (sessions : List InterviewSession)
    (jobId sid now : String) (model : Except Unit String)
    (parse : String → Option JVal) (i : Nat) (s : InterviewSession)
    (hfind : sessions.findIdx? (fun s => s.id == sid && s.jobId == jobId) = some i)
    (hget : sessions.get? i = some s)
    (_hdone : optStrTruthy s.completedAt = true) :
    (endRoute sessions jobId sid now model parse).modelCalled = true ∧
    (∀ raw fb, model = .ok raw → parse (chosenInput raw) = some fb →
       (endRoute sessions jobId sid now model parse).store
         = sessions.set i (endStep s fb now) ∧
       (endRoute sessions jobId sid now model parse).resp
         = .ok (endStep s fb now) ∧
       (endStep s fb now).feedback = some fb ∧
       (endStep s fb now).completedAt = some now) := by
  simp only [endRoute, hfind, hget]
  constructor
  · cases model with
    | error u => rfl
    | ok raw =>
        cases hp : parse (chosenInput raw) with
        | none => simp [hp]
        | some fb => simp [hp]
  · intro raw fb hm hp
    subst hm
    simp only [hp]
    exact ⟨by trivial, by trivial, rfl, rfl⟩

/-- Witness for C7: ending a concrete already-completed session again
re-invokes the model and overwrites feedback and completedAt. -/
theorem endRoute_reprocesses_completed_witness :
    (endRoute [⟨"s1", "j1", [⟨.assistant, "q1", none, none, none⟩], 1,
        some (JVal.str "old"), "t0", some "t1"⟩] "j1" "s1" "t2" (.ok "raw")
        (fun _ => some (JVal.str "new"))).modelCalled = true ∧
    (endRoute [⟨"s1", "j1", [⟨.assistant, "q1", none, none, none⟩], 1,
        some (JVal.str "old"), "t0", some "t1"⟩] "j1" "s1" "t2" (.ok "raw")
        (fun _ => some (JVal.str "new"))).store
      = [endStep ⟨"s1", "j1", [⟨.assistant, "q1", none, none, none⟩], 1,
          some (JVal.str "old"), "t0", some "t1"⟩ (JVal.str "new") "t2"] := by
  have h := endRoute_reprocesses_completed
    [⟨"s1", "j1", [⟨.assistant, "q1", none, none, none⟩], 1,
      some (JVal.str "old"), "t0", some "t1"⟩] "j1" "s1" "t2" (.ok "raw")
    (fun _ => some (JVal.str "new")) 0
    ⟨"s1", "j1", [⟨.assistant, "q1", none, none, none⟩], 1,
      some (JVal.str "old"), "t0", some "t1"⟩ rfl rfl rfl
  exact ⟨h.1, (h.2 "raw" (JVal.str "new") rfl rfl).1⟩

/-- Counterexample for C7 as stated: a second `end` call on a concrete
completed session does invoke the model and does overwrite the stored
feedback and completedAt. -/
theorem endRoute_double_end_counterexample :
    (endRoute [⟨"s1", "j1", [⟨.assistant, "q1", none, none, none⟩], 1,
        some (JVal.str "oldFeedback"), "t0", some "t1"⟩] "j1" "s1" "t2" (.ok "raw")
        (fun _ => some (JVal.str "newFeedback"))).modelCalled = true ∧
    ((endRoute [⟨"s1", "j1", [⟨.assistant, "q1", none, none, none⟩], 1,
        some (JVal.str "oldFeedback"), "t0", some "t1"⟩] "j1" "s1" "t2" (.ok "raw")
        (fun _ => some (JVal.str "newFeedback"))).store.getD 0
        ⟨"", "", [], 0, none, "", none⟩).completedAt = some "t2" ∧
    ((endRoute [⟨"s1", "j1", [⟨.assistant, "q1", none, none, none⟩], 1,
        some (JVal.str "oldFeedback"), "t0", some "t1"⟩] "j1" "s1" "t2" (.ok "raw")
        (fun _ => some (JVal.str "newFeedback"))).store.getD 0
        ⟨"", "", [], 0, none, "", none⟩).feedback = some (JVal.str "newFeedback") ∧
    (some "t2" : Option String) ≠ some "t1" :=
  ⟨rfl, rfl, rfl, by decide⟩

theorem objGet_mkArtifactEntry_docxPath (prior : Option JObj) (job : JObj)
    (jobId : String) (parsed : JVal) (freshId now : String)
    (h : spreadHasKey parsed "docxPath" = false) :
    objGet (mkArtifactEntry prior job jobId parsed freshId now) "docxPath"
      = .undef := by
  have htail : ∀ (v : JVal) (q : String × JVal),
      q ∈ ([("createdAt", v), ("updatedAt", JVal.str now)] : JObj) →
      q.1 ≠ "docxPath" := by
    intro v q hq
    simp only [List.mem_cons, List.not_mem_nil, or_false] at hq
    rcases hq with rfl | rfl
    · show ("createdAt" : String) ≠ "docxPath"
      decide
    · show ("updatedAt" : String) ≠ "docxPath"
      decide
  have hspread := spreadKVs_no_key parsed "docxPath" h
  unfold mkArtifactEntry objGet
  rw [objGetAux_append, objGetAux_append,
      objGetAux_of_not_mem _ _ _ (htail _), objGetAux_of_not_mem _ _ _ hspread]
  simp [objGetAux]

/-- C8 (amended): document rendering is non-fatal and optional — with no
template registered for the kind `generateDocx` returns none, with the
template file missing it returns none, with any rendering step failing it
returns none; and in each of those cases the generation route still
persists and returns the textual artifact, attaching no document
reference, so `docxPath` is absent provided the extracted result itself
carries no `docxPath` key.  (The original claim, without that proviso,
fails because `...parsed` can smuggle a `docxPath` field into the stored
artifact — see the counterexample.) -/
theorem generateDocx_nonfatal (templates : List DocTemplate) (ttype : String)
    (fileExists : Bool) (render : Except Unit Unit) (fid : String)
    (jobs store : List JObj) (jid : String) (model : Except Unit String)
    (parse : String → Option JVal) (freshId now : String) :
    (templates.find? (fun t => t.kind == ttype) = none →
       generateDocx templates ttype fileExists render fid = none) ∧
    (fileExists = false →
       generateDocx templates ttype fileExists render fid = none) ∧
    (render = .error () →
       generateDocx templates ttype fileExists render fid = none) ∧
    (∀ job raw parsedV, jid ≠ "" →
       jobs.find? (fun j => jvalIsStr (objGet j "id") jid) = some job →
       model = .ok raw → parse (chosenInput raw) = some parsedV →
       (generateArtifactRoute jobs store (some jid) model parse freshId now none).resp
         = .ok (artifactUpsertE store job jid parsedV freshId now none).1 ∧
       (generateArtifactRoute jobs store (some jid) model parse freshId now none).store
         = artifactUpsert store job jid parsedV freshId now none ∧
       (spreadHasKey parsedV "docxPath" = false →
          objGet (artifactUpsertE store job jid parsedV freshId now none).1 "docxPath"
            = JVal.undef)) := by
  refine ⟨?_, ?_, ?_, ?_⟩
  · intro h
    simp [generateDocx, h]
  · intro h
    subst h
    unfold generateDocx
    cases templates.find? (fun t => t.kind == ttype) with
    | none => rfl
    | some t => rfl
  · intro h
    subst h
    unfold generateDocx
    cases templates.find? (fun t => t.kind == ttype) with
    | none => rfl
    | some t => cases fileExists <;> rfl
  · intro job raw parsedV hjid hfound hm hp
    subst hm
    simp only [generateArtifactRoute, if_neg hjid, hfound, hp]
    refine ⟨by trivial, by trivial, ?_⟩
    intro hnokey
    unfold artifactUpsertE
    cases hidx : store.findIdx? (fun r => jvalIsStr (objGet r "jobId") jid) with
    | none =>
        simp only [attachDocx]
        exact objGet_mkArtifactEntry_docxPath none job jid parsedV freshId now hnokey
    | some i =>
        simp only [attachDocx]
        exact objGet_mkArtifactEntry_docxPath (store.get? i) job jid parsedV freshId
          now hnokey

/-- Witness for C8: with no registered template the renderer yields none
and a concrete generation still succeeds, storing an artifact with no
docxPath. -/
theorem generateDocx_nonfatal_witness :
    generateDocx [] "resume" true (.ok ()) "u1" = none ∧
    generateDocx [⟨"resume", "f.docx"⟩] "resume" false (.ok ()) "u1" = none ∧
    generateDocx [⟨"resume", "f.docx"⟩] "resume" true (.error ()) "u1" = none ∧
    (generateArtifactRoute [[("id", JVal.str "j1")]] [] (some "j1") (.ok "raw")
        (fun _ => some (JVal.obj [("summary", JVal.str "s")])) "f" "t" none).resp
      = .ok (artifactUpsertE [] [[("id", JVal.str "j1")]].head! "j1"
          (JVal.obj [("summary", JVal.str "s")]) "f" "t" none).1 ∧
    objGet (artifactUpsertE [] [("id", JVal.str "j1")] "j1"
        (JVal.obj [("summary", JVal.str "s")]) "f" "t" none).1 "docxPath"
      = JVal.undef := by
  have h := generateDocx_nonfatal [] "resume" true (.ok ()) "u1"
    [[("id", JVal.str "j1")]] [] "j1" (.ok "raw")
    (fun _ => some (JVal.obj [("summary", JVal.str "s")])) "f" "t"
  have h2 := generateDocx_nonfatal [⟨"resume", "f.docx"⟩] "resume" false (.ok ()) "u1"
    [] [] "j1" (.ok "raw") (fun _ => none) "f" "t"
  have h3 := generateDocx_nonfatal [⟨"resume", "f.docx"⟩] "resume" true (.error ()) "u1"
    [] [] "j1" (.ok "raw") (fun _ => none) "f" "t"
  have hmain := h.2.2.2 [("id", JVal.str "j1")] "raw"
    (JVal.obj [("summary", JVal.str "s")]) (by decide) rfl rfl rfl
  exact ⟨h.1 rfl, h2.2.1 rfl, h3.2.2.1 rfl, hmain.1, hmain.2.2 rfl⟩

/-- Counterexample for C8 as stated: with no template registered the
renderer returns none, yet the stored artifact can still carry a
`docxPath` — one smuggled in by the extracted result itself — so
"docxPath absent" does not hold for every result. -/
theorem generateDocx_docxPath_smuggled_counterexample :
    generateDocx [] "resume" true (.ok ()) "u1" = none ∧
    objGet ((generateArtifactRoute [[("id", JVal.str "j1")]] [] (some "j1")
        (.ok "raw") (fun _ => some (JVal.obj [("docxPath", JVal.str "evil")]))
        "f" "t" none).store.getD 0 []) "docxPath" = JVal.str "evil" ∧
    (JVal.str "evil" ≠ JVal.undef) :=
  ⟨rfl, rfl, fun h => JVal.noConfusion h⟩

/-- C9: atomicity on failure — for every generation or interview request
whose response is an error (missing or unknown job, unknown session,
blank answer, completed session, model unavailable, or extraction
failure), the persisted artifact collection or interview-session
collection returned by the route equals the one it was given: every
failing handler returns before any write. -/
theorem failing_requests_preserve_store :
    (∀ (jobs store : List JObj) (jobId : Option String)
       (model : Except Unit String) (parse : String → Option JVal)
       (freshId now : String) (docx : Option String) (e : RouteError),
       (generateArtifactRoute jobs store jobId model parse freshId now docx).resp
         = .error e →
       (generateArtifactRoute jobs store jobId model parse freshId now docx).store
         = store) ∧
    (∀ (jobs : List JObj) (sessions : List InterviewSession)
       (jobId freshId now : String) (model : Except Unit String)
       (parse : String → Option ParsedOpening) (e : RouteError),
       (startRoute jobs sessions jobId freshId now model parse).resp = .error e →
       (startRoute jobs sessions jobId freshId now model parse).store = sessions) ∧
    (∀ (sessions : List InterviewSession) (jobId sid : String)
       (answer : Option String) (model : Except Unit String)
       (parse : String → Option ParsedTurn) (e : RouteError),
       (respondRoute sessions jobId sid answer model parse).resp = .error e →
       (respondRoute sessions jobId sid answer model parse).store = sessions) ∧
    (∀ (sessions : List InterviewSession) (jobId sid now : String)
       (model : Except Unit String) (parse : String → Option JVal)
       (e : RouteError),
       (endRoute sessions jobId sid now model parse).resp = .error e →
       (endRoute sessions jobId sid now model parse).store = sessions) := by
  refine ⟨?_, ?_, ?_, ?_⟩
  · intro jobs store jobId model parse freshId now docx e h
    cases jobId with
    | none => rfl
    | some jid =>
        by_cases hj : jid = ""
        · simp [generateArtifactRoute, if_pos hj]
        · simp only [generateArtifactRoute, if_neg hj] at h ⊢
          cases hfind : jobs.find? (fun j => jvalIsStr (objGet j "id") jid) with
          | none => simp [hfind]
          | some job =>
              simp only [hfind] at h ⊢
              cases model with
              | error u => rfl
              | ok raw =>
                  cases hp : parse (chosenInput raw) with
                  | none => simp [hp]
                  | some v =>
                      simp only [hp] at h
                      exact absurd h (by simp)
  · intro jobs sessions jobId freshId now model parse e h
    cases hfind : jobs.find? (fun j => jvalIsStr (objGet j "id") jobId) with
    | none => simp [startRoute, hfind]
    | some job =>
        simp only [startRoute, hfind] at h ⊢
        cases model with
        | error u => rfl
        | ok raw =>
            cases hp : parse (chosenInput raw) with
            | none => simp [hp]
            | some p =>
                simp only [hp] at h
                exact absurd h (by simp)
  · intro sessions jobId sid answer model parse e h
    cases answer with
    | none => rfl
    | some a =>
        simp only [respondRoute] at h ⊢
        by_cases hb : (decide (a = "") || decide (String.mk (jsTrim a.data) = "")) = true
        · simp [hb]
        · rw [Bool.not_eq_true] at hb
          simp only [hb, Bool.false_eq_true, if_false] at h ⊢
          cases hfind : sessions.findIdx? (fun s => s.id == sid && s.jobId == jobId) with
          | none => simp [hfind]
          | some i =>
              simp only [hfind] at h ⊢
              cases hget : sessions.get? i with
              | none => simp [hget]
              | some s =>
                  simp only [hget] at h ⊢
                  by_cases hdone : optStrTruthy s.completedAt = true
                  · simp [hdone]
                  · rw [Bool.not_eq_true] at hdone
                    simp only [hdone, Bool.false_eq_true, if_false] at h ⊢
                    cases model with
                    | error u => rfl
                    | ok raw =>
                        cases hp : parse (chosenInput raw) with
                        | none => simp [hp]
                        | some t =>
                            simp only [hp] at h
                            exact absurd h (by simp)
  · intro sessions jobId sid now model parse e h
    cases hfind : sessions.findIdx? (fun s => s.id == sid && s.jobId == jobId) with
    | none => simp [endRoute, hfind]
    | some i =>
        simp only [endRoute, hfind] at h ⊢
        cases hget : sessions.get? i with
        | none => simp [hget]
        | some s =>
            simp only [hget] at h ⊢
            cases model with
            | error u => rfl
            | ok raw =>
                cases hp : parse (chosenInput raw) with
                | none => simp [hp]
                | some fb =>
                    simp only [hp] at h
                    exact absurd h (by simp)

/-- Witness for C9: four concrete failing requests — generation with an
unknown job, start with an unknown job, respond with a blank answer, end
with an unknown session — each leave their concrete store unchanged. -/
theorem failing_requests_preserve_store_witness :
    (generateArtifactRoute [] [[("id", JVal.str "keep")]] (some "j1") (.ok "raw")
        (fun _ => none) "f" "t" none).store = [[("id", JVal.str "keep")]] ∧
    (startRoute [] [⟨"s0", "j0", [], 1, none, "t0", none⟩] "j1" "f" "t" (.ok "raw")
        (fun _ => none)).store = [⟨"s0", "j0", [], 1, none, "t0", none⟩] ∧
    (respondRoute [⟨"s0", "j0", [], 1, none, "t0", none⟩] "j0" "s0" (some "")
        (.ok "raw") (fun _ => none)).store = [⟨"s0", "j0", [], 1, none, "t0", none⟩] ∧
    (endRoute [⟨"s0", "j0", [], 1, none, "t0", none⟩] "j0" "missing" "t9" (.ok "raw")
        (fun _ => none)).store = [⟨"s0", "j0", [], 1, none, "t0", none⟩] :=
  ⟨failing_requests_preserve_store.1 [] [[("id", JVal.str "keep")]] (some "j1")
      (.ok "raw") (fun _ => none) "f" "t" none .jobNotFound rfl,
   failing_requests_preserve_store.2.1 [] [⟨"s0", "j0", [], 1, none, "t0", none⟩]
      "j1" "f" "t" (.ok "raw") (fun _ => none) .jobNotFound rfl,
   failing_requests_preserve_store.2.2.1 [⟨"s0", "j0", [], 1, none, "t0", none⟩]
      "j0" "s0" (some "") (.ok "raw") (fun _ => none) .answerRequired rfl,
   failing_requests_preserve_store.2.2.2 [⟨"s0", "j0", [], 1, none, "t0", none⟩]
      "j0" "missing" "t9" (.ok "raw") (fun _ => none) .sessionNotFound rfl⟩
